import Mathlib

/-
Verification of the gapminder backend (src/backend/main.py and
src/backend/src/models.py) against its natural-language specification.

The backend is a read-only HTTP service with two routes: GET / returns a
fixed status object, and GET /api/gapminder queries all rows of the
gapminder_data table and serializes each row into a JSON object, renaming
the snake_case storage columns to camelCase wire fields.

Embedding choices:
  - JSON scalar values are a small inductive `Value` (strings, integers,
    floats); the Python floats never undergo arithmetic here, they are only
    stored and passed through, so they are embedded as rationals.
  - A serialized JSON object is an ordered association list of key/value
    pairs, matching the literal key order of the dict built in main.py.
  - The database state is the ordered list of GapminderData rows that
    db.query(GapminderData).all() would return.
  - Handlers are pure functions of the database state; the request
    dispatcher `handle` returns the response together with the database
    state after the request, so frame properties are statable.
  - The fallible variant `get_gapminder_dataE` threads the query result
    through Except, mirroring the fact that main.py has no try/except
    around the query: an exception raised by the query propagates.
-/

/-- A JSON scalar value as produced by the handlers: string, integer or
float. Floats are embedded as rationals since the code only stores and
forwards them. -/
inductive Value where
  | str (s : String)
  | int (n : Int)
  | float (q : ℚ)
deriving DecidableEq, Repr

/-- A serialized JSON object: an ordered association list from key to
scalar value, in the key order of the Python dict literal. -/
abbrev JsonObj := List (String × Value)

/-- A response body: either a single JSON object (GET /) or an array of
JSON objects (GET /api/gapminder). -/
inductive Body where
  | obj (o : JsonObj)
  | arr (items : List JsonObj)
deriving DecidableEq, Repr

/-- An HTTP response: status code and JSON body. -/
structure HTTPResponse where
  statusCode : Nat
  body : Body
deriving DecidableEq, Repr

/-- One row of the gapminder_data table, after src/backend/src/models.py:
class GapminderData with columns id (surrogate primary key), country,
continent, year, life_exp, pop, gdp_per_cap. -/
structure GapminderData where
  id : Int
  country : String
  continent : String
  year : Int
  life_exp : ℚ
  pop : Int
  gdp_per_cap : ℚ
deriving DecidableEq, Repr

/-- The database state: the ordered sequence of rows that
db.query(GapminderData).all() returns. -/
structure DB where
  gapminder_data : List GapminderData
deriving DecidableEq, Repr

/-- The dict literal built for one row inside get_gapminder_data in
src/backend/main.py: six wire fields, with life_exp exposed as lifeExp,
gdp_per_cap as gdpPercap, and the other columns under their own names.
The id column does not appear in the literal. -/
def serializeRow (item : GapminderData) : JsonObj :=
  [("country", Value.str item.country),
   ("continent", Value.str item.continent),
   ("year", Value.int item.year),
   ("lifeExp", Value.float item.life_exp),
   ("pop", Value.int item.pop),
   ("gdpPercap", Value.float item.gdp_per_cap)]

/-- The GET / handler (root in src/backend/main.py): returns the status
object with FastAPI's default 200 status. It takes no database argument,
as the Python handler declares no dependency. -/
def root : HTTPResponse :=
  HTTPResponse.mk 200 (Body.obj [("status", Value.str "Ready")])

/-- The GET /api/gapminder handler (get_gapminder_data in
src/backend/main.py): queries all rows and returns the list comprehension
of serialized rows, with FastAPI's default 200 status. -/
def get_gapminder_data (db : DB) : HTTPResponse :=
  HTTPResponse.mk 200 (Body.arr (db.gapminder_data.map serializeRow))

/-- The service's request dispatch over the two registered routes. The
second component is the database state after the request: both handlers
only read, so it is the input state unchanged. -/
def handle (db : DB) (path : String) : Option HTTPResponse × DB :=
  if path = "/" then (some root, db)
  else if path = "/api/gapminder" then (some (get_gapminder_data db), db)
  else (none, db)

/-- An error raised by the database layer when the backing table is
missing or unreadable. -/
inductive DBError where
  | tableMissing
  | unreadable
  | failure (msg : String)
deriving DecidableEq, Repr

/-- The body of get_gapminder_data with the query's fallibility made
explicit: the handler binds the query result and builds the response from
it. main.py has no try/except and no error-response branch, so in the
Except embedding a query error passes straight through the bind. -/
def get_gapminder_dataE (q : Except DBError (List GapminderData)) :
    Except DBError HTTPResponse := do
  let data ← q
  pure (HTTPResponse.mk 200 (Body.arr (data.map serializeRow)))

/-- The CORS middleware configuration as passed to app.add_middleware in
src/backend/main.py. -/
structure CORSConfig where
  allow_origins : List String
  allow_credentials : Bool
  allow_methods : List String
  allow_headers : List String
deriving DecidableEq, Repr

/-- The literal configuration from src/backend/main.py. -/
def corsConfig : CORSConfig :=
  CORSConfig.mk ["http://localhost:3000"] true ["*"] ["*"]

/-- Modelled from the spec: the Access-Control-Allow-Origin decision the
host framework's CORS middleware (not part of this repository's files)
makes for the configuration above — a request bearing an Origin in the
allowed list receives the header echoing that origin, any other origin
does not receive the header. -/
def corsAllowOriginHeader (origin : String) : Option String :=
  if origin ∈ corsConfig.allow_origins then some origin else none

/-- Modelled from the spec: the out-of-band load process that populates
the table (not part of this repository's files) — appending one row to
the stored sequence. -/
def insertRow (db : DB) (item : GapminderData) : DB :=
  DB.mk (db.gapminder_data ++ [item])

/-- Modelled from the spec: the static-file variant (not under src/) — a
tabular file with a header of native column names and a list of rows of
values. -/
structure CSVFile where
  header : List String
  rows : List (List Value)
deriving DecidableEq, Repr

/-- Modelled from the spec: one row of the tabular file keyed by the
file's native column names, verbatim, with no renaming. -/
def readCSVRow (header : List String) (row : List Value) : JsonObj :=
  List.zip header row

/-- Modelled from the spec: the static-file variant's data endpoint — on
each request it loads the file in full and returns one record per row
under the file's native column names. -/
def static_data_endpoint (file : CSVFile) : HTTPResponse :=
  HTTPResponse.mk 200 (Body.arr (file.rows.map (readCSVRow file.header)))

/-- The spec's example fixture row for Afghanistan, 1952. -/
def afgRow : GapminderData :=
  GapminderData.mk 1 "Afghanistan" "Asia" 1952 (28801/1000) 8425333
    (7794453145/10000000)

/-- A one-row database holding the fixture row. -/
def dbExample : DB := DB.mk [afgRow]

/-- A small fixture file for the static-file variant. -/
def csvExample : CSVFile :=
  CSVFile.mk ["country", "continent", "year", "lifeExp", "pop", "gdpPercap"]
    [[Value.str "Afghanistan", Value.str "Asia", Value.int 1952,
      Value.float (28801/1000), Value.int 8425333,
      Value.float (7794453145/10000000)]]

/-- Helper: no route mutates the database state. Shared by the frame and
idempotence theorems. -/
theorem handle_preserves_db (db : DB) (path : String) :
    (handle db path).2 = db := by
  unfold handle
  split
  · rfl
  · split <;> rfl

/-- C1: the object returned for a stored row carries the row's stored
field values unchanged under the documented renaming (lifeExp from
life_exp, gdpPercap from gdp_per_cap, pop from pop, and country,
continent, year under their own names); inserting a row and then calling
the endpoint returns exactly that object for the new row. -/
theorem serialize_roundtrip (db : DB) (item : GapminderData) :
    (get_gapminder_data (insertRow db item)).body
        = Body.arr (db.gapminder_data.map serializeRow ++ [serializeRow item])
    ∧ List.lookup "lifeExp" (serializeRow item) = some (Value.float item.life_exp)
    ∧ List.lookup "gdpPercap" (serializeRow item) = some (Value.float item.gdp_per_cap)
    ∧ List.lookup "pop" (serializeRow item) = some (Value.int item.pop)
    ∧ List.lookup "country" (serializeRow item) = some (Value.str item.country)
    ∧ List.lookup "continent" (serializeRow item) = some (Value.str item.continent)
    ∧ List.lookup "year" (serializeRow item) = some (Value.int item.year) := by
  refine ⟨?_, rfl, rfl, rfl, rfl, rfl, rfl⟩
  simp [get_gapminder_data, insertRow]

/-- C2: for every database state, GET /api/gapminder returns an array with
exactly one element per stored row, and every element is an object with
exactly the six wire keys country, continent, year, lifeExp, pop,
gdpPercap carrying a string, string, integer, float, integer and float
value respectively. -/
theorem gapminder_shape (db : DB) :
    (get_gapminder_data db).statusCode = 200
    ∧ (get_gapminder_data db).body
        = Body.arr (db.gapminder_data.map serializeRow)
    ∧ (db.gapminder_data.map serializeRow).length = db.gapminder_data.length
    ∧ ∀ o ∈ db.gapminder_data.map serializeRow,
        ∃ (c k : String) (y p : Int) (l g : ℚ),
          o = [("country", Value.str c), ("continent", Value.str k),
               ("year", Value.int y), ("lifeExp", Value.float l),
               ("pop", Value.int p), ("gdpPercap", Value.float g)] := by
  refine ⟨rfl, rfl, db.gapminder_data.length_map serializeRow, ?_⟩
  intro o ho
  rcases List.mem_map.1 ho with ⟨item, _, rfl⟩
  exact ⟨item.country, item.continent, item.year, item.pop, item.life_exp,
    item.gdp_per_cap, rfl⟩

/-- C3: for every database state, GET / responds with exactly the object
mapping "status" to "Ready", HTTP 200, and the handler succeeds without
consulting the database. -/
theorem root_always_ready (db : DB) :
    (handle db "/").1
      = some (HTTPResponse.mk 200 (Body.obj [("status", Value.str "Ready")])) := by
  rfl

/-- C4: the surrogate id column never appears in a returned object — the
key list of every serialized row is exactly the six wire keys, a lookup of
"id" fails, changing only the id column leaves the serialized object
unchanged, and the endpoint returns nothing but such serialized rows. -/
theorem id_never_serialized (db : DB) (item : GapminderData) (i : Int) :
    (get_gapminder_data db).body
        = Body.arr (db.gapminder_data.map serializeRow)
    ∧ (serializeRow item).map Prod.fst
        = ["country", "continent", "year", "lifeExp", "pop", "gdpPercap"]
    ∧ List.lookup "id" (serializeRow item) = none
    ∧ serializeRow (GapminderData.mk i item.country item.continent item.year
        item.life_exp item.pop item.gdp_per_cap) = serializeRow item := by
  exact ⟨rfl, rfl, rfl, rfl⟩

/-- C5: no request mutates the database: for every starting state and
every path, the database state after handling the request equals the
state before it. -/
theorem no_request_mutates (db : DB) (path : String) :
    (handle db path).2 = db :=
  handle_preserves_db db path

/-- C6: repeated calls to GET /api/gapminder without intervening writes
return identical results — a second call, made on the state left by the
first, yields the same response as the first. -/
theorem gapminder_idempotent (db : DB) :
    (handle (handle db "/api/gapminder").2 "/api/gapminder").1
      = (handle db "/api/gapminder").1 := by
  rw [handle_preserves_db]

/-- C7: the CORS policy permits exactly the single origin
http://localhost:3000 with credentials allowed and all methods and
headers allowed; a request bearing that origin receives an
Access-Control-Allow-Origin header echoing it, and a request from any
other origin does not receive that header. -/
theorem cors_policy :
    corsConfig.allow_origins = ["http://localhost:3000"]
    ∧ corsConfig.allow_credentials = true
    ∧ corsConfig.allow_methods = ["*"]
    ∧ corsConfig.allow_headers = ["*"]
    ∧ corsAllowOriginHeader "http://localhost:3000"
        = some "http://localhost:3000"
    ∧ ∀ o : String, o ≠ "http://localhost:3000" →
        corsAllowOriginHeader o = none := by
  refine ⟨rfl, rfl, rfl, rfl, rfl, ?_⟩
  intro o ho
  simp [corsAllowOriginHeader, corsConfig, ho]

/-- C8: the GET /api/gapminder handler has no guard against a failing
query: when the query fails, the failure propagates out of the handler
unchanged, and no error response is produced; when the query succeeds,
the ordinary response is produced. -/
theorem query_error_propagates (e : DBError) (data : List GapminderData) :
    get_gapminder_dataE (Except.error e) = Except.error e
    ∧ get_gapminder_dataE (Except.ok data)
        = Except.ok (get_gapminder_data (DB.mk data)) := by
  exact ⟨rfl, rfl⟩

/-- C9: the static-file variant's data endpoint loads the file in full
and returns one key-value record per row, in file order, keyed by the
file's native column names with no renaming performed. -/
theorem static_variant_native_names (file : CSVFile)
    (hlen : ∀ r ∈ file.rows, r.length = file.header.length) :
    (static_data_endpoint file).body
        = Body.arr (file.rows.map (readCSVRow file.header))
    ∧ (file.rows.map (readCSVRow file.header)).length = file.rows.length
    ∧ ∀ o ∈ file.rows.map (readCSVRow file.header),
        o.map Prod.fst = file.header := by
  refine ⟨rfl, file.rows.length_map _, ?_⟩
  intro o ho
  rcases List.mem_map.1 ho with ⟨r, hr, rfl⟩
  exact List.map_fst_zip _ _ ((hlen r hr).ge)

/-- Witness for C9 at the concrete fixture file. -/
theorem static_variant_native_names_witness :
    (readCSVRow csvExample.header
        [Value.str "Afghanistan", Value.str "Asia", Value.int 1952,
         Value.float (28801/1000), Value.int 8425333,
         Value.float (7794453145/10000000)]).map Prod.fst
      = csvExample.header :=
  (static_variant_native_names csvExample
    (by intro r hr; rw [csvExample] at hr; simp at hr; rw [hr]; rfl)).2.2 _
    (by simp [csvExample])

/-- C10: the GET / handler performs no database access: for any two
database states the response of GET / is identical. -/
theorem root_db_independent (db1 db2 : DB) :
    (handle db1 "/").1 = (handle db2 "/").1 := by
  rfl
